import Mathlib

/-!
Shallow embedding of the VBAIgame real-time audio/dialogue pipeline
(`src/audio_util.py` and the live `DialogueSystem` class of `src/app.py`,
lines 560-798), together with proofs of the specification's claims.

Conventions of the embedding:
* 16-bit PCM samples are modeled as `Int` (numpy `int16` values); the
  base64 decode step of the source is dropped, an inbound audio delta is
  carried directly as its decoded sample list.
* A numpy array queued for playback is a `List Int`; the playback FIFO
  (`AudioPlayerAsync.queue`, a Python list of arrays) is a
  `List (List Int)`.
* Python dict `acc_items` is modeled as a total function
  `String → String` with default `""`: the source only ever uses
  `acc_items.get(item_id, "")`, `acc_items[item_id] = v` and
  `acc_items.clear()`, for which this representation is observationally
  identical.
* Remote `await`s are fire-and-forget from the local state's point of
  view; where the source catches an exception from a remote call, the
  outcome is passed in as an explicit parameter.
-/

namespace AudioUtil

/-- State of `AudioPlayerAsync` (`src/audio_util.py`, lines 42-119):
`queue` is the list of queued numpy arrays, `playing` the `self.playing`
flag, `frameCount` the `self._frame_count` counter, and `streamStarted`
records whether `self.stream.start()` is in effect (set by `start`,
unset by `stop`). -/
structure AudioPlayerAsync where
  queue : List (List Int)
  playing : Bool
  frameCount : Nat
  streamStarted : Bool

namespace AudioPlayerAsync

/-- The `while len(data) < frames and len(self.queue) > 0` loop of
`callback` (`audio_util.py` lines 69-74): pop the front item, take the
samples still needed, and if the item was longer than needed push the
remainder back at the front.  Returns the queue left behind and the
accumulated `data`. -/
def drainQueue (frames : Nat) : List (List Int) → List Int → List (List Int) × List Int
  | [], data => ([], data)
  | item :: rest, data =>
    if data.length < frames then
      let needed := frames - data.length
      let data' := data ++ item.take needed
      if needed < item.length then
        (item.drop needed :: rest, data')
      else
        drainQueue frames rest data'
    else (item :: rest, data)

/-- Model of `callback(outdata, frames, time, status)` (`audio_util.py` lines
61-82): drain the queue into `data`, add `len(data)` to the frame
counter, and pad the remainder of the block with zeros.  Returns the
updated player state and the block written to `outdata`. -/
def callback (p : AudioPlayerAsync) (frames : Nat) : AudioPlayerAsync × List Int :=
  let r := drainQueue frames p.queue []
  ({ p with queue := r.1, frameCount := p.frameCount + r.2.length },
    r.2 ++ List.replicate (frames - r.2.length) 0)

/-- Model of `reset_frame_count` (`audio_util.py` lines 84-86). -/
def reset_frame_count (p : AudioPlayerAsync) : AudioPlayerAsync :=
  { p with frameCount := 0 }

/-- Model of `start` (`audio_util.py` lines 105-108). -/
def start (p : AudioPlayerAsync) : AudioPlayerAsync :=
  { p with playing := true, streamStarted := true }

/-- Model of `stop` (`audio_util.py` lines 110-115): halt the stream and clear
the queue. -/
def stop (p : AudioPlayerAsync) : AudioPlayerAsync :=
  { p with playing := false, streamStarted := false, queue := [] }

/-- Model of `add_data` (`audio_util.py` lines 92-103): append the decoded array
to the queue and start playback if not already playing. -/
def add_data (p : AudioPlayerAsync) (d : List Int) : AudioPlayerAsync :=
  let p' := { p with queue := p.queue ++ [d] }
  if ¬ p'.playing then p'.start else p'

/-- Iterated output callback: run `callback` once per requested block
size in `fs`, collecting the emitted blocks. -/
def callbackRun (p : AudioPlayerAsync) : List Nat → AudioPlayerAsync × List (List Int)
  | [] => (p, [])
  | f :: fs =>
    (((p.callback f).1.callbackRun fs).1,
      (p.callback f).2 :: ((p.callback f).1.callbackRun fs).2)

lemma drainQueue_spec (frames : Nat) (q : List (List Int)) (data : List Int)
    (h : data.length ≤ frames) :
    (drainQueue frames q data).2 = data ++ q.flatten.take (frames - data.length) ∧
    (drainQueue frames q data).1.flatten = q.flatten.drop (frames - data.length) := by
  induction q generalizing data with
  | nil => simp [drainQueue]
  | cons item rest ih =>
    by_cases hlt : data.length < frames
    · by_cases hsplit : frames - data.length < item.length
      · constructor
        · simp only [drainQueue, if_pos hlt, if_pos hsplit, List.flatten_cons]
          rw [List.take_append_of_le_length (by omega)]
        · simp only [drainQueue, if_pos hlt, if_pos hsplit, List.flatten_cons]
          rw [List.drop_append_of_le_length (by omega)]
      · have hlen : item.length ≤ frames - data.length := by omega
        have hrec := ih (data ++ item.take (frames - data.length))
          (by rw [List.length_append, List.length_take]; omega)
        simp only [drainQueue, if_pos hlt, if_neg hsplit]
        rw [List.take_of_length_le hlen] at hrec ⊢
        have harith : frames - (data ++ item).length = frames - data.length - item.length := by
          rw [List.length_append]; omega
        rw [harith] at hrec
        constructor
        · rw [hrec.1, List.flatten_cons, List.take_append_eq_append_take,
            List.take_of_length_le hlen, List.append_assoc]
        · rw [hrec.2, List.flatten_cons, List.drop_append_eq_append_drop,
            List.drop_eq_nil_of_le hlen, List.nil_append]
    · have hdata : data.length = frames := by omega
      simp [drainQueue, if_neg hlt, hdata]

lemma callback_out (p : AudioPlayerAsync) (frames : Nat) :
    (p.callback frames).2
      = p.queue.flatten.take frames
        ++ List.replicate (frames - min (p.queue.flatten.length) frames) 0 := by
  obtain ⟨h2, _⟩ := drainQueue_spec frames p.queue [] (by simp)
  simp only [List.length_nil, Nat.sub_zero, List.nil_append] at h2
  simp only [callback, h2, List.length_take]
  congr 2
  omega

lemma callback_queue_flatten (p : AudioPlayerAsync) (frames : Nat) :
    (p.callback frames).1.queue.flatten = p.queue.flatten.drop frames := by
  obtain ⟨_, h1⟩ := drainQueue_spec frames p.queue [] (by simp)
  simpa only [Nat.sub_zero] using h1

lemma callback_frameCount (p : AudioPlayerAsync) (frames : Nat) :
    (p.callback frames).1.frameCount
      = p.frameCount + min (p.queue.flatten.length) frames := by
  obtain ⟨h2, _⟩ := drainQueue_spec frames p.queue [] (by simp)
  simp only [List.length_nil, Nat.sub_zero, List.nil_append] at h2
  simp only [callback, h2, List.length_take]
  omega

lemma callbackRun_spec (fs : List Nat) (p : AudioPlayerAsync) :
    ((p.callbackRun fs).2).flatten
      = p.queue.flatten.take fs.sum
        ++ List.replicate (fs.sum - min (p.queue.flatten.length) fs.sum) 0 ∧
    (p.callbackRun fs).1.queue.flatten = p.queue.flatten.drop fs.sum := by
  induction fs generalizing p with
  | nil => simp [callbackRun]
  | cons f fs ih =>
    obtain ⟨ih2, ih1⟩ := ih (p.callback f).1
    rw [callback_queue_flatten, List.length_drop] at ih2
    rw [callback_queue_flatten, List.drop_drop] at ih1
    simp only [callbackRun, List.flatten_cons, List.sum_cons, callback_out]
    refine ⟨?_, ?_⟩
    · rw [ih2]
      rcases le_or_lt f p.queue.flatten.length with hle | hlt
      · have h0 : f - min (p.queue.flatten.length) f = 0 := by omega
        have hc : fs.sum - min (p.queue.flatten.length - f) fs.sum
            = f + fs.sum - min (p.queue.flatten.length) (f + fs.sum) := by omega
        rw [h0, hc, List.replicate_zero, List.append_nil, List.take_add,
          List.append_assoc]
      · have hS : p.queue.flatten.length ≤ f := hlt.le
        have hm1 : f - min (p.queue.flatten.length) f
            = f - p.queue.flatten.length := by omega
        have hm2 : fs.sum - min (p.queue.flatten.length - f) fs.sum = fs.sum := by
          omega
        have hm3 : f + fs.sum - min (p.queue.flatten.length) (f + fs.sum)
            = (f - p.queue.flatten.length) + fs.sum := by omega
        rw [hm1, hm2, hm3, List.take_of_length_le hS,
          List.take_of_length_le (le_trans hS (Nat.le_add_right _ _)),
          List.drop_eq_nil_of_le hS, List.take_nil, List.nil_append,
          List.append_assoc, ← List.replicate_add]
    · rw [ih1]

end AudioPlayerAsync

end AudioUtil

namespace App

open AudioUtil

/-- One entry of `conversation_history`: a `{"role": ..., "content": ...}`
dict (`app.py` lines 674, 685, 771-774). -/
structure Turn where
  role : String
  content : String
deriving DecidableEq, Repr

/-- State of the live `DialogueSystem` class (`src/app.py` lines 560-594),
restricted to the fields the realtime pipeline reads or writes.
`realtime_conn` records whether `self.realtime_conn` is a connection object
(`true`) or `None` (`false`); `realtime_ready` is the source's
`realtime_initialized` flag (renamed here). -/
structure DSState where
  audio_player : AudioPlayerAsync
  npc_message : String
  acc_items : String → String
  last_audio_item_id : Option String
  is_npc_responding : Bool
  speech_mode : Bool
  speech_active : Bool
  realtime_conn : Bool
  realtime_ready : Bool
  conversation_history : List Turn
  sent_audio_once : Bool

/-- Inbound realtime events consumed by `handle_realtime_event`
(`app.py` lines 652-708).  An audio delta carries its base64-decoded
sample list directly. -/
inductive RealtimeEvent where
  | sessionCreated
  | sessionUpdated
  | audioDelta (item_id : String) (delta : List Int)
  | transcriptDelta (item_id : String) (delta : String)
  | transcriptDone (item_id : String)
  | speechStarted
  | speechDone
  | commitDone
  | responseDone
  | errorEvent (msg : String)
  | otherEvent (t : String)

/-- Python's `needle in hay` substring test on strings. -/
def strContains (hay needle : String) : Bool :=
  decide (needle.toList <:+: hay.toList)

/-- The local reset performed by `cancel_ongoing_response` (`app.py` lines
792-797) after the best-effort remote cancel: stop the player (which clears
its queue), reset the frame counter, clear the caption and the transcript
accumulator, forget the playback item-id, and clear the responding flag. -/
def cancelReset (s : DSState) : DSState :=
  { s with
    audio_player := s.audio_player.stop.reset_frame_count,
    npc_message := "",
    acc_items := fun _ => "",
    last_audio_item_id := none,
    is_npc_responding := false }

/-- Model of `cancel_ongoing_response` (`app.py` lines 783-798).  The guard
`if self.is_npc_responding or self.audio_player.is_playing():` short-circuits:
when `is_npc_responding` is true the body runs; otherwise evaluating
`self.audio_player.is_playing()` raises `AttributeError` (the
`AudioPlayerAsync` of `audio_util.py` defines no `is_playing` method),
modeled as `Except.error`.  `remoteOutcome` is the outcome of
`await self.realtime_conn.response.cancel()` (`none` if it returned,
`some m` if it raised an exception printing as `m`); the source catches any
such exception and only logs it (after substring-matching the message
against "response_cancel_not_active"), so the local reset runs for every
outcome. -/
def cancel_ongoing_response (remoteOutcome : Option String) (s : DSState) :
    Except String DSState :=
  if s.is_npc_responding then
    match remoteOutcome with
    | none => Except.ok (cancelReset s)
    | some _ => Except.ok (cancelReset s)
  else
    Except.error "AttributeError: is_playing"

/-- Model of `handle_realtime_event` (`app.py` lines 652-708), one inbound
event at a time.  The whole body is wrapped in `try/except Exception`: the
except branch prints and sets `is_npc_responding = False`.  `remoteOutcome`
threads the outcome of a remote cancel, as in `cancel_ongoing_response`. -/
def handle_realtime_event (remoteOutcome : Option String) (e : RealtimeEvent)
    (s : DSState) : DSState :=
  match e with
  | .sessionCreated => s
  | .sessionUpdated => s
  | .audioDelta item_id delta =>
    let s := { s with is_npc_responding := true }
    let s :=
      if some item_id ≠ s.last_audio_item_id then
        { s with audio_player := s.audio_player.reset_frame_count,
                 last_audio_item_id := some item_id }
      else s
    { s with audio_player := s.audio_player.add_data delta }
  | .transcriptDelta item_id delta =>
    let so_far := s.acc_items item_id ++ delta
    { s with acc_items := fun k => if k = item_id then so_far else s.acc_items k }
  | .transcriptDone item_id =>
    let msg := s.acc_items item_id
    { s with npc_message := msg,
             conversation_history := s.conversation_history ++ [⟨"assistant", msg⟩],
             is_npc_responding := false }
  | .speechStarted =>
    let s := { s with speech_active := true }
    match (if s.is_npc_responding then cancel_ongoing_response remoteOutcome s
           else Except.ok s) with
    | .error _ => { s with is_npc_responding := false }
    | .ok s1 =>
      { s1 with
        audio_player := s1.audio_player.stop,
        npc_message := "",
        acc_items := fun _ => "",
        conversation_history :=
          s1.conversation_history ++ [⟨"user", "[Speech input started]"⟩] }
  | .speechDone =>
    let s := { s with speech_active := false }
    -- `await self.realtime_conn.input_audio_buffer.commit()` raises
    -- AttributeError when no connection object is present; the outer except
    -- then clears the responding flag.
    if s.realtime_conn then s else { s with is_npc_responding := false }
  | .commitDone => s
  | .responseDone => { s with is_npc_responding := false }
  | .errorEvent msg =>
    if strContains msg "response_cancel_not_active" then s
    else { s with speech_mode := false, realtime_conn := false,
                  realtime_ready := false }
  | .otherEvent _ => s

/-- The fixed apology string of `send_message`'s except branch
(`app.py` line 779). -/
def apologyMsg : String :=
  "I apologize, but I\x27m having trouble connecting to our systems right now."

/-- Model of `send_message` (`app.py` lines 744-781).  `fallback` is the
outcome of the non-streaming `chat.completions.create` call (`Except.ok
reply` means it returned `reply`, `Except.error m` means it raised); it is
consulted only on the fallback path.  On the realtime path `text_input` goes
to the remote side (`conversation.item.create`) and the remote sends are
modeled as succeeding. -/
def send_message (fallback : Except String String) (text_input : String)
    (s : DSState) : DSState :=
  if s.conversation_history = [] then s
  else if s.speech_mode && s.realtime_conn && s.realtime_ready then
    if s.is_npc_responding then
      match cancel_ongoing_response none s with
      | .ok s1 => s1
      | .error _ => { s with npc_message := apologyMsg, is_npc_responding := false }
    else s
  else
    match fallback with
    | .ok reply =>
      { s with
        conversation_history := s.conversation_history ++ [⟨"assistant", reply⟩],
        npc_message := reply,
        is_npc_responding := true }
    | .error _ => { s with npc_message := apologyMsg, is_npc_responding := false }

/-- One pass over the remaining allowed attempts of the retry loop of
`initialize_realtime` (`app.py` lines 604-650); `failed = true` means the
attempt raised.  A non-final failed attempt sleeps 2 seconds and retries;
the final failed attempt disables speech mode and breaks.  Returns the
final state, the number of attempts made, and the inter-attempt sleeps. -/
def runAttempts : List Bool → DSState → DSState × Nat × List Nat
  | [], s => (s, 0, [])
  | failed :: rest, s =>
    if failed then
      let s' := { s with realtime_conn := false, realtime_ready := false }
      match rest with
      | [] => ({ s' with speech_mode := false }, 1, [])
      | _ :: _ =>
        let r := runAttempts rest s'
        (r.1, r.2.1 + 1, 2 :: r.2.2)
    else ({ s with realtime_conn := true, realtime_ready := true }, 1, [])

/-- Model of `initialize_realtime` (`app.py` lines 600-650): clear
`realtime_initialized`, then make up to `max_attempts = 3` attempts;
`outcome i = true` means attempt `i` raised.  Every exception is caught
inside the loop body, so the coroutine never raises to its caller. -/
def init_realtime (outcome : Nat → Bool) (s : DSState) :
    DSState × Nat × List Nat :=
  runAttempts [outcome 0, outcome 1, outcome 2] { s with realtime_ready := false }

/-- Environment of one iteration of the `while True` loop of
`record_mic_audio` (`app.py` lines 717-733): samples available on the input
stream, the overflow flag of `stream.read`, and the samples read. -/
structure MicEnv where
  readAvailable : Nat
  overflowed : Bool
  data : List Int

/-- Outbound commands sent by the capture loop. -/
inductive Command where
  | appendAudio (samples : List Int)
deriving DecidableEq

/-- One iteration of the capture loop of `record_mic_audio` (`app.py` lines
717-733): skip unless speech mode is on, a connection object exists and the
session is configured; skip when fewer than `readSize` samples are ready or
the read overflowed; otherwise send the chunk (when non-empty) and mark
`sent_audio_once`. -/
def micIteration (readSize : Nat) (s : DSState) (env : MicEnv) :
    DSState × List Command :=
  if !s.speech_mode || !s.realtime_conn || !s.realtime_ready then (s, [])
  else if env.readAvailable < readSize then (s, [])
  else if env.overflowed then (s, [])
  else if 0 < env.data.length then
    ({ s with sent_audio_once := true }, [Command.appendAudio env.data])
  else (s, [])

/-- The capture loop over a finite trace of environments, collecting every
command sent. -/
def micRun (readSize : Nat) (s : DSState) : List MicEnv → DSState × List Command
  | [] => (s, [])
  | env :: rest =>
    ((micRun readSize (micIteration readSize s env).1 rest).1,
      (micIteration readSize s env).2
        ++ (micRun readSize (micIteration readSize s env).1 rest).2)

/-- A concrete quiescent `DialogueSystem` state, used to instantiate
hypotheses of the claims at closed inputs. -/
def dsInit : DSState :=
  { audio_player := { queue := [], playing := false, frameCount := 0,
                      streamStarted := false },
    npc_message := "",
    acc_items := fun _ => "",
    last_audio_item_id := none,
    is_npc_responding := false,
    speech_mode := false,
    speech_active := false,
    realtime_conn := false,
    realtime_ready := false,
    conversation_history := [],
    sent_audio_once := false }

end App

namespace AudioUtil.AudioPlayerAsync

lemma add_data_queue (p : AudioPlayerAsync) (d : List Int) :
    (p.add_data d).queue = p.queue ++ [d] := by
  by_cases hp : p.playing <;> simp [add_data, start, hp]

lemma add_data_frameCount (p : AudioPlayerAsync) (d : List Int) :
    (p.add_data d).frameCount = p.frameCount := by
  by_cases hp : p.playing <;> simp [add_data, start, hp]

end AudioUtil.AudioPlayerAsync

namespace App

open AudioUtil

/-- Claim C1: one invocation of the output callback emits exactly the first
`min(S, frames)` samples of the concatenation of the queued frames in queue
order (`S` = total queued sample count, and `take frames` of that
concatenation is exactly its first `min(S, frames)` samples), requeues the
unconsumed remainder at the front (the surviving queue's concatenation is
the dropped suffix), and pads the remaining `frames - min(S, frames)`
positions with zero samples; iterating the callback over any run of block
sizes `fs`, the concatenated output is the first `sum fs` queued samples
followed only by zero padding, so exactly `S` queued samples come out
before any padding once `sum fs ≥ S`. -/
theorem claim_C1 (p : AudioPlayerAsync) (frames : Nat) (fs : List Nat) :
    (p.callback frames).2
      = p.queue.flatten.take frames
        ++ List.replicate (frames - min (p.queue.flatten.length) frames) 0 ∧
    (p.callback frames).1.queue.flatten = p.queue.flatten.drop frames ∧
    ((p.callbackRun fs).2).flatten
      = p.queue.flatten.take fs.sum
        ++ List.replicate (fs.sum - min (p.queue.flatten.length) fs.sum) 0 :=
  ⟨AudioPlayerAsync.callback_out p frames,
   AudioPlayerAsync.callback_queue_flatten p frames,
   (AudioPlayerAsync.callbackRun_spec fs p).1⟩

/-- Claim C2: from any state in which the agent is responding with frames
queued, handling one inbound speech-started event leaves the playback queue
empty, the frame counter reset to 0, the transcript accumulator cleared, the
responding flag cleared and playback stopped — for every outcome of the
remote cancel command (`none` = returned, `some m` = raised). -/
theorem claim_C2 (s : DSState) (remoteOutcome : Option String)
    (hresp : s.is_npc_responding = true)
    (hqueued : s.audio_player.queue ≠ []) :
    (handle_realtime_event remoteOutcome .speechStarted s).audio_player.queue = [] ∧
    (handle_realtime_event remoteOutcome .speechStarted s).audio_player.frameCount = 0 ∧
    (handle_realtime_event remoteOutcome .speechStarted s).acc_items = (fun _ => "") ∧
    (handle_realtime_event remoteOutcome .speechStarted s).is_npc_responding = false ∧
    (handle_realtime_event remoteOutcome .speechStarted s).audio_player.playing = false := by
  cases remoteOutcome <;>
    simp [handle_realtime_event, cancel_ongoing_response, cancelReset,
      AudioPlayerAsync.stop, AudioPlayerAsync.reset_frame_count, hresp]

/-- Concrete agent-responding state with one queued frame, used to
instantiate claim C2. -/
def c2State : DSState :=
  { dsInit with
    is_npc_responding := true,
    audio_player := { queue := [[1]], playing := true, frameCount := 3,
                      streamStarted := true } }

/-- Witness for claim C2 at a concrete responding state with a queued frame
and a remote cancel that raises. -/
theorem claim_C2_witness :
    (handle_realtime_event (some "timeout") .speechStarted c2State).audio_player.queue = [] ∧
    (handle_realtime_event (some "timeout") .speechStarted c2State).audio_player.frameCount = 0 ∧
    (handle_realtime_event (some "timeout") .speechStarted c2State).acc_items = (fun _ => "") ∧
    (handle_realtime_event (some "timeout") .speechStarted c2State).is_npc_responding = false ∧
    (handle_realtime_event (some "timeout") .speechStarted c2State).audio_player.playing = false :=
  claim_C2 c2State (some "timeout") rfl (by decide)

/-- Concrete state with a frame of a previous item-id (`"old"`, sample `7`)
still queued, used for claim C3. -/
def c3State : DSState :=
  { dsInit with
    is_npc_responding := true,
    last_audio_item_id := some "old",
    audio_player := { queue := [[7]], playing := true, frameCount := 5,
                      streamStarted := true } }

/-- Counterexample to claim C3 as stated: handling an audio delta for a new
item-id (`"new"`, decoded frame `[9]`) while a frame of the previous item-id
is still queued does NOT clear the queue — the old sample `7` is still
queued (in front of the new frame) after the handler returns. -/
theorem claim_C3_cex :
    (handle_realtime_event none (.audioDelta "new" [9]) c3State).audio_player.queue
      = [[7], [9]] ∧
    (7 : Int) ∈
      (handle_realtime_event none (.audioDelta "new" [9]) c3State).audio_player.queue.flatten := by
  decide

/-- Claim C3 as amended: on an audio delta whose item-id differs from the
current playback item-id, the handler resets the played-frame counter to 0
and adopts the new item-id before the decoded frame is enqueued, and marks
the agent as responding — but it does not clear the queue: the previously
queued frames remain, with the new frame appended after them. -/
theorem claim_C3_amended (s : DSState) (rO : Option String) (item_id : String)
    (delta : List Int) (hnew : some item_id ≠ s.last_audio_item_id) :
    (handle_realtime_event rO (.audioDelta item_id delta) s).audio_player.frameCount = 0 ∧
    (handle_realtime_event rO (.audioDelta item_id delta) s).last_audio_item_id
      = some item_id ∧
    (handle_realtime_event rO (.audioDelta item_id delta) s).audio_player.queue
      = s.audio_player.queue ++ [delta] ∧
    (handle_realtime_event rO (.audioDelta item_id delta) s).is_npc_responding = true := by
  simp [handle_realtime_event, hnew, AudioPlayerAsync.add_data_queue,
    AudioPlayerAsync.add_data_frameCount, AudioPlayerAsync.reset_frame_count]

/-- Witness for the amended claim C3 at the concrete state `c3State`. -/
theorem claim_C3_amended_witness :
    (handle_realtime_event none (.audioDelta "new2" [9]) c3State).audio_player.frameCount = 0 ∧
    (handle_realtime_event none (.audioDelta "new2" [9]) c3State).last_audio_item_id
      = some "new2" ∧
    (handle_realtime_event none (.audioDelta "new2" [9]) c3State).audio_player.queue
      = c3State.audio_player.queue ++ [[9]] ∧
    (handle_realtime_event none (.audioDelta "new2" [9]) c3State).is_npc_responding = true :=
  claim_C3_amended c3State none "new2" [9] (by decide)

/-- Claim C4: on a remote error event whose message contains
"response_cancel_not_active" the handler leaves the whole state unchanged;
on any other error message it disables speech mode and drops the connection
(`realtime_conn = None`, `realtime_initialized = False`) and changes nothing
else.  The handler is a total function here because the source wraps the
whole body in `try/except`, so no exception reaches its caller. -/
theorem claim_C4 (s : DSState) (rO : Option String) (msg : String) :
    (strContains msg "response_cancel_not_active" = true →
      handle_realtime_event rO (.errorEvent msg) s = s) ∧
    (strContains msg "response_cancel_not_active" = false →
      handle_realtime_event rO (.errorEvent msg) s
        = { s with speech_mode := false, realtime_conn := false,
                   realtime_ready := false }) := by
  constructor <;> intro h <;> simp [handle_realtime_event, h]

/-- Witness for claim C4: the two branches at concrete error messages. -/
theorem claim_C4_witness :
    handle_realtime_event none (.errorEvent "Error: response_cancel_not_active") dsInit
      = dsInit ∧
    handle_realtime_event none (.errorEvent "boom") dsInit
      = { dsInit with speech_mode := false, realtime_conn := false,
                      realtime_ready := false } :=
  ⟨(claim_C4 dsInit none "Error: response_cancel_not_active").1 (by decide),
   (claim_C4 dsInit none "boom").2 (by decide)⟩

end App

namespace App

open AudioUtil

/-- Claim C5: for every sequence of attempt outcomes the connect procedure
makes at most 3 attempts, its inter-attempt delays are monotonically
non-decreasing (they are the constant 2 seconds), and when all 3 attempts
fail it makes exactly 3 attempts and disables speech mode.  `init_realtime`
is a total function: the source catches every attempt's exception inside the
loop, so nothing is raised to the caller. -/
theorem claim_C5 (outcome : Nat → Bool) (s : DSState) :
    (init_realtime outcome s).2.1 ≤ 3 ∧
    List.Chain' (· ≤ ·) (init_realtime outcome s).2.2 ∧
    ((∀ i, i < 3 → outcome i = true) →
      (init_realtime outcome s).1.speech_mode = false ∧
      (init_realtime outcome s).2.1 = 3) := by
  refine ⟨?_, ?_, fun hall => ?_⟩
  · cases h0 : outcome 0 <;> cases h1 : outcome 1 <;> cases h2 : outcome 2 <;>
      simp [init_realtime, runAttempts, h0, h1, h2]
  · cases h0 : outcome 0 <;> cases h1 : outcome 1 <;> cases h2 : outcome 2 <;>
      simp [init_realtime, runAttempts, h0, h1, h2]
  · have h0 := hall 0 (by omega)
    have h1 := hall 1 (by omega)
    have h2 := hall 2 (by omega)
    simp [init_realtime, runAttempts, h0, h1, h2]

/-- Witness for claim C5 with every attempt failing. -/
theorem claim_C5_witness :
    (init_realtime (fun _ => true) dsInit).2.1 ≤ 3 ∧
    List.Chain' (· ≤ ·) (init_realtime (fun _ => true) dsInit).2.2 ∧
    ((init_realtime (fun _ => true) dsInit).1.speech_mode = false ∧
      (init_realtime (fun _ => true) dsInit).2.1 = 3) :=
  ⟨(claim_C5 (fun _ => true) dsInit).1,
   (claim_C5 (fun _ => true) dsInit).2.1,
   (claim_C5 (fun _ => true) dsInit).2.2 (fun _ _ => rfl)⟩

/-- Claim C6: when the turn log is non-empty and the realtime path is not
taken, a fallback request that raises leaves the displayed reply equal to
the fixed apology string and the conversation turn log exactly as it was;
`send_message` is a total function because the source catches the exception,
so it does not propagate to the caller. -/
theorem claim_C6 (s : DSState) (text_input em : String)
    (hhist : s.conversation_history ≠ [])
    (hpath : (s.speech_mode && s.realtime_conn && s.realtime_ready) = false) :
    (send_message (Except.error em) text_input s).npc_message = apologyMsg ∧
    (send_message (Except.error em) text_input s).conversation_history
      = s.conversation_history := by
  simp [send_message, hhist, hpath]

/-- Concrete state with one user turn and speech mode off, used to
instantiate claim C6. -/
def c6State : DSState :=
  { dsInit with conversation_history := [⟨"user", "hello"⟩] }

/-- Witness for claim C6 at a concrete state whose fallback call raises. -/
theorem claim_C6_witness :
    (send_message (Except.error "APIError") "hi" c6State).npc_message = apologyMsg ∧
    (send_message (Except.error "APIError") "hi" c6State).conversation_history
      = c6State.conversation_history :=
  claim_C6 c6State "hi" "APIError" (by decide) rfl

/-- Folding a list of transcript deltas for one item-id through the event
handler, in arrival order. -/
def applyDeltas (item_id : String) (ds : List String) (s : DSState) : DSState :=
  ds.foldl (fun t d => handle_realtime_event none (.transcriptDelta item_id d) t) s

lemma applyDeltas_acc (item_id : String) (ds : List String) (s : DSState) :
    (applyDeltas item_id ds s).acc_items item_id
      = ds.foldl (fun a d => a ++ d) (s.acc_items item_id) := by
  induction ds generalizing s with
  | nil => rfl
  | cons d ds ih =>
    show (applyDeltas item_id ds _).acc_items item_id = _
    rw [ih]
    simp [handle_realtime_event]

/-- Counterexample to claim C7 as stated: the transcript-done handler does
NOT clear the accumulated buffer.  After accumulating "a" for item "i1" and
finalizing it once, the accumulated entry still holds "a", and a second
finalize of the same item-id yields "a" again, not the empty string the
claim requires. -/
theorem claim_C7_cex :
    ((handle_realtime_event none (.transcriptDone "i1")
        (handle_realtime_event none (.transcriptDelta "i1" "a") dsInit)).acc_items "i1"
      = "a") ∧
    ((handle_realtime_event none (.transcriptDone "i1")
        (handle_realtime_event none (.transcriptDone "i1")
          (handle_realtime_event none (.transcriptDelta "i1" "a") dsInit))).npc_message
      = "a") ∧
    ("a" : String) ≠ "" := by
  refine ⟨rfl, rfl, by decide⟩

/-- Claim C7 as amended: finalizing on transcript-done returns the
concatenation of the deltas in arrival order (so "a", "b", "c" yields
"abc"), and returns the empty string rather than an error when no text was
accumulated (the `ds = []` instance) — but the accumulated entry is NOT
cleared: it still holds the same text after finalizing, and a subsequent
finalize of the same item-id returns that same text again rather than the
empty string. -/
theorem claim_C7_amended (s : DSState) (item_id : String) (ds : List String)
    (hempty : s.acc_items item_id = "") :
    ((handle_realtime_event none (.transcriptDone item_id)
        (applyDeltas item_id ds s)).npc_message = String.join ds) ∧
    ((handle_realtime_event none (.transcriptDone item_id)
        (applyDeltas item_id ds s)).acc_items item_id = String.join ds) ∧
    ((handle_realtime_event none (.transcriptDone item_id)
        (handle_realtime_event none (.transcriptDone item_id)
          (applyDeltas item_id ds s))).npc_message = String.join ds) := by
  have hacc := applyDeltas_acc item_id ds s
  rw [hempty] at hacc
  have hjoin : String.join ds = ds.foldl (fun a d => a ++ d) "" := rfl
  refine ⟨?_, ?_, ?_⟩ <;> simp [handle_realtime_event, hacc, hjoin]

/-- Witness for the amended claim C7: deltas "a", "b", "c" on a fresh state
finalize to "abc", twice. -/
theorem claim_C7_amended_witness :
    ((handle_realtime_event none (.transcriptDone "i1")
        (applyDeltas "i1" ["a", "b", "c"] dsInit)).npc_message = String.join ["a", "b", "c"]) ∧
    ((handle_realtime_event none (.transcriptDone "i1")
        (applyDeltas "i1" ["a", "b", "c"] dsInit)).acc_items "i1" = String.join ["a", "b", "c"]) ∧
    ((handle_realtime_event none (.transcriptDone "i1")
        (handle_realtime_event none (.transcriptDone "i1")
          (applyDeltas "i1" ["a", "b", "c"] dsInit))).npc_message = String.join ["a", "b", "c"]) :=
  claim_C7_amended dsInit "i1" ["a", "b", "c"] rfl

lemma micIteration_speech_mode (readSize : Nat) (s : DSState) (env : MicEnv) :
    (micIteration readSize s env).1.speech_mode = s.speech_mode := by
  simp only [micIteration]
  split_ifs <;> rfl

lemma micRun_no_send (readSize : Nat) (envs : List MicEnv) (s : DSState)
    (hoff : s.speech_mode = false) : (micRun readSize s envs).2 = [] := by
  induction envs generalizing s with
  | nil => rfl
  | cons env rest ih =>
    have hiter : micIteration readSize s env = (s, []) := by
      simp [micIteration, hoff]
    simp [micRun, hiter, ih s hoff]

/-- Claim C8: an iteration of the capture loop sends an append-audio command
only when speech mode is enabled, a connection object exists and the session
is configured; consequently over any execution starting with speech mode
disabled (the loop itself never enables it), no append-audio command is ever
sent, even while the connection stays active. -/
theorem claim_C8 (readSize : Nat) (s s' : DSState) (envs : List MicEnv)
    (env : MicEnv) (hoff : s.speech_mode = false) :
    (micRun readSize s envs).2 = [] ∧
    ((micIteration readSize s' env).2 ≠ [] →
      s'.speech_mode = true ∧ s'.realtime_conn = true ∧ s'.realtime_ready = true) := by
  refine ⟨micRun_no_send readSize envs s hoff, fun hsend => ?_⟩
  cases hm : s'.speech_mode <;> cases hc : s'.realtime_conn <;>
    cases hr : s'.realtime_ready <;> simp_all [micIteration]

/-- Concrete connected-but-muted state and environment for claim C8: speech
mode off, connection active and configured, a full chunk available. -/
def c8State : DSState :=
  { dsInit with realtime_conn := true, realtime_ready := true }

/-- Witness for claim C8: with speech mode off but the connection active, a
two-iteration run with data available sends nothing. -/
theorem claim_C8_witness :
    (micRun 480 c8State
        [⟨480, false, [1, 2]⟩, ⟨480, false, [3]⟩]).2 = [] ∧
    ((micIteration 480 dsInit ⟨480, false, [1]⟩).2 ≠ [] →
      dsInit.speech_mode = true ∧ dsInit.realtime_conn = true ∧
        dsInit.realtime_ready = true) :=
  claim_C8 480 c8State dsInit [⟨480, false, [1, 2]⟩, ⟨480, false, [3]⟩]
    ⟨480, false, [1]⟩ rfl

/-- Claim C9 (implicit): `add_data` establishes playback — after any call,
the `playing` flag is true, the output stream has been started, and the
queue is non-empty, so "non-empty queue implies playback active" holds
after every enqueue without a separate `start` call.  The hypothesis is the
source's invariant that `playing` is only ever set by `start`, which also
starts the stream. -/
theorem claim_C9 (p : AudioPlayerAsync) (d : List Int)
    (hinv : p.playing = true → p.streamStarted = true) :
    (p.add_data d).playing = true ∧ (p.add_data d).streamStarted = true ∧
    (p.add_data d).queue ≠ [] := by
  cases hp : p.playing
  · simp [AudioPlayerAsync.add_data, AudioPlayerAsync.start, hp]
  · simp [AudioPlayerAsync.add_data, AudioPlayerAsync.start, hp, hinv hp]

/-- Witness for claim C9 at a stopped player. -/
theorem claim_C9_witness :
    ((AudioPlayerAsync.mk [] false 0 false).add_data [1]).playing = true ∧
    ((AudioPlayerAsync.mk [] false 0 false).add_data [1]).streamStarted = true ∧
    ((AudioPlayerAsync.mk [] false 0 false).add_data [1]).queue ≠ [] :=
  claim_C9 (AudioPlayerAsync.mk [] false 0 false) [1] (by decide)

/-- Claim C10 (implicit): a transcript-done event for an item-id with no
accumulated text still appends one assistant turn with empty content and
sets the caption to the empty string; and on every transcript-done event
(arbitrary state `s'`) the turn log grows by exactly one assistant entry
carrying the accumulated text. -/
theorem claim_C10 (s s' : DSState) (item_id : String)
    (hempty : s.acc_items item_id = "") :
    ((handle_realtime_event none (.transcriptDone item_id) s).conversation_history
        = s.conversation_history ++ [⟨"assistant", ""⟩] ∧
      (handle_realtime_event none (.transcriptDone item_id) s).npc_message = "") ∧
    (handle_realtime_event none (.transcriptDone item_id) s').conversation_history
      = s'.conversation_history ++ [⟨"assistant", s'.acc_items item_id⟩] := by
  refine ⟨⟨?_, ?_⟩, ?_⟩ <;> simp [handle_realtime_event, hempty]

/-- Witness for claim C10 at the fresh state, which has no accumulated text
for any item-id. -/
theorem claim_C10_witness :
    ((handle_realtime_event none (.transcriptDone "i9") dsInit).conversation_history
        = dsInit.conversation_history ++ [⟨"assistant", ""⟩] ∧
      (handle_realtime_event none (.transcriptDone "i9") dsInit).npc_message = "") ∧
    (handle_realtime_event none (.transcriptDone "i9") dsInit).conversation_history
      = dsInit.conversation_history ++ [⟨"assistant", dsInit.acc_items "i9"⟩] :=
  claim_C10 dsInit dsInit "i9" rfl

end App
